import Mathlib

/-!
Shallow embedding of the define-os batch-analysis server
(`src/unnamed/part_002`, helpers in `src/ui/process_utils.js`).

JavaScript strings are modelled as Lean `String` / `List Char` (UTF-16
subtleties do not arise for the inputs considered here); `JSON.parse` and the
two spawned subprocesses are oracles passed in as parameters; thrown
exceptions are modelled by `Option`/`Except`-style control flow mirroring the
`try`/`catch` structure of the source.
-/

namespace DefineOS

/-- JavaScript truthiness of a numeric option field (`undefined`/`null`/`0`
are falsy, any other number truthy), as used in `if (job.headerHeight)`. -/
def jsTruthyNum : Option Int → Bool
  | none => false
  | some n => n != 0

/-- JavaScript `s || d` for a string: the fallback is used when `s` is the
empty string (falsy). -/
def jsOrStr (s d : String) : String :=
  if s = "" then d else s

/-- JavaScript `v || null` for an optional string-valued JSON field: an absent
field or an empty string both collapse to `null`. -/
def jsOrNull : Option String → Option String
  | none => none
  | some s => if s = "" then none else some s

/-- JavaScript `e || d` for an optional string (`analysis.error || '...'`). -/
def jsOrOpt (s : Option String) (d : String) : String :=
  match s with
  | none => d
  | some e => if e = "" then d else e

/-- Whitespace characters removed by JavaScript `String.prototype.trim`
(restricted to the ASCII whitespace relevant here). -/
def isJsWs (c : Char) : Bool :=
  c = ' ' || c = '\t' || c = '\n' || c = '\r'

/-- `String.prototype.trim` on a character list. -/
def jsTrimL (s : List Char) : List Char :=
  ((s.dropWhile isJsWs).reverse.dropWhile isJsWs).reverse

/-- `String.prototype.trim`. -/
def jsTrim (s : String) : String :=
  String.mk (jsTrimL s.data)

/-- `s.substring(0, n)`. -/
def jsSubstr (s : String) (n : Nat) : String :=
  String.mk (s.data.take n)

/-- `path.basename`: the final path component, accepting both separators
(the server runs the Windows `path` module); paths produced by the capture
tool never end in a separator. -/
def basename (s : String) : String :=
  String.mk ((s.data.reverse.takeWhile (fun c => c ≠ '/' && c ≠ '\\')).reverse)

/-- Does `pat` occur at the start of `s`? -/
def startsWith : List Char → List Char → Bool
  | [], _ => true
  | _ :: _, [] => false
  | p :: ps, c :: cs => p = c && startsWith ps cs

/-- Split `s` at the first occurrence of the (nonempty) pattern `pat`,
returning the characters before and after it. -/
def splitFirst (pat : List Char) : List Char → Option (List Char × List Char)
  | [] => none
  | c :: cs =>
    if startsWith pat (c :: cs) then some ([], (c :: cs).drop pat.length)
    else
      match splitFirst pat cs with
      | some (pre, post) => some (c :: pre, post)
      | none => none

/-! ## The WHATWG `URL` constructor (Node built-in), modelled for absolute
`scheme://host/path` URLs.  `new URL(s)` throwing is modelled as `none`. -/

/-- Parsed pieces of an absolute URL as exposed by the `URL` object. -/
structure URLObj where
  scheme : String
  host : String
  pathname : String
  deriving Repr, DecidableEq

/-- `url.origin`. -/
def URLObj.origin (u : URLObj) : String :=
  u.scheme ++ "://" ++ u.host

/-- Modelled from the Node built-in `URL` constructor (not repository code):
accepts `scheme://host[/path...]` with nonempty scheme and host, returns
`none` (the constructor throws) otherwise.  Query/fragment components do not
occur in the inputs the repository feeds it and are left as part of the
path. -/
def parseURL (s : String) : Option URLObj :=
  match splitFirst "://".data s.data with
  | none => none
  | some (schemeL, restL) =>
    if schemeL = [] then none
    else
      let hostL := restL.takeWhile (fun c => c ≠ '/')
      let pathL := restL.drop hostL.length
      if hostL = [] then none
      else some ⟨String.mk schemeL, String.mk hostL, String.mk pathL⟩

/-- The `homePatterns` array of `isHomePageUrl`
(`src/unnamed/part_002:378`). -/
def homePatterns : List String := ["/", "/index.html", "/home", "/index.php"]

/-- `isHomePageUrl(url, allUrls)` (`src/unnamed/part_002:366-395`): root-ish
pathname, else (for multi-URL batches) comparison of the raw URL string with
each home pattern resolved against the URL's origin, else equality with
`allUrls[0]`; any parse failure is caught and yields `false`. -/
def isHomePageUrl (url : String) (allUrls : List String) : Bool :=
  match parseURL url with
  | none => false
  | some u =>
    if u.pathname = "/" || u.pathname = "" || u.pathname = "/index.html"
        || u.pathname = "/home" then
      true
    else if allUrls.length > 1 then
      if homePatterns.any (fun p => url = u.origin ++ p) then true
      else url = allUrls.headD ""
    else
      false

/-- The analysis type string chosen for a URL in `processAnalysisJob`
(`src/unnamed/part_002:452-453`): `'all'` for a homepage, `'body'`
otherwise. -/
def analysisTypeFor (url : String) (jobUrls : List String) : String :=
  if isHomePageUrl url jobUrls then "all" else "body"

/-- Homepage classification exactly as the specification words it
(for comparison with `isHomePageUrl`): a URL is a homepage when its path is
`/`, empty, `/index.html` or `/home`; when the batch has multiple URLs and
none of them is such a syntactic match, the first URL of the batch is the
homepage. -/
def specSyntacticHome (url : String) : Bool :=
  match parseURL url with
  | none => false
  | some u =>
    u.pathname = "/" || u.pathname = "" || u.pathname = "/index.html"
      || u.pathname = "/home"

/-- The spec's homepage classification (see `specSyntacticHome`). -/
def specIsHomepage (url : String) (allUrls : List String) : Bool :=
  specSyntacticHome url
    || (allUrls.length > 1
        && allUrls.all (fun u => !specSyntacticHome u)
        && allUrls.headD "" == url)

/-! ## The two output-directory regexes

Both regexes used by the server and by `extractOutputDirectory` have the form
`literal(.+)`: a literal pattern followed by a greedy capture of at least one
character that is not a line terminator.  `s.match(re)` scans for the
leftmost position where the literal occurs followed by at least one
non-terminator character and captures the rest of that line. -/

/-- The portion of a line a greedy `(.+)` captures: everything up to the next
line terminator. -/
def lineRest (s : List Char) : List Char :=
  s.takeWhile (fun c => c ≠ '\n' && c ≠ '\r')

/-- Try to match `literal(.+)` at the current position: the literal must be
present verbatim and at least one non-terminator character must follow. -/
def matchAt : List Char → List Char → Option (List Char)
  | [], s => let cap := lineRest s; if cap = [] then none else some cap
  | _ :: _, [] => none
  | p :: ps, c :: cs => if p = c then matchAt ps cs else none

/-- `s.match(/literal(.+)/)`: leftmost match, returning the capture group. -/
def jsMatchL (pat : List Char) : List Char → Option (List Char)
  | [] => matchAt pat []
  | c :: cs =>
    match matchAt pat (c :: cs) with
    | some cap => some cap
    | none => jsMatchL pat cs

/-- `s.match(/literal(.+)/)` on strings. -/
def jsMatchStr (pat : String) (s : String) : Option String :=
  (jsMatchL pat.data s.data).map String.mk

/-- The primary output-directory pattern `Output saved in: (.+)`. -/
def outPrimaryPat : String := "Output saved in: "

/-- The fallback output-directory pattern `> Output saved in: (.+)`. -/
def outAltPat : String := "> Output saved in: "

/-- `extractOutputDirectory(output)` (`src/ui/process_utils.js:133-148`):
primary pattern first, then the fallback pattern, trimming the capture;
`null` when neither matches. -/
def extractOutputDirectory (output : String) : Option String :=
  match jsMatchStr outPrimaryPat output with
  | some cap => some (jsTrim cap)
  | none =>
    match jsMatchStr outAltPat output with
    | some cap => some (jsTrim cap)
    | none => none

/-- Extraction using the primary pattern alone — the behaviour the claim
says `extractOutputDirectory` is extensionally equal to. -/
def specExtractPrimaryOnly (output : String) : Option String :=
  (jsMatchStr outPrimaryPat output).map jsTrim

/-- `parseProcessOutput(output, context)` (`src/ui/process_utils.js:114-126`):
`JSON.parse` the text (the parser is an oracle parameter standing for the
built-in); a parse exception is downgraded to a structured failure record. -/
structure ParseFailure where
  success : Bool
  error : String
  raw_output : String
  deriving Repr, DecidableEq

/-- See `ParseFailure`. -/
def parseProcessOutput {α : Type} (jsonParse : String → Except String α)
    (output : String) (context : String) : α ⊕ ParseFailure :=
  match jsonParse output with
  | Except.ok v => Sum.inl v
  | Except.error msg =>
    Sum.inr ⟨false,
      "Failed to parse " ++ context ++ " response: " ++ msg,
      jsSubstr output 200⟩

/-! ## Subprocess runner and AI analysis -/

/-- How a spawned subprocess ends: a launch error (the `error` event) or an
exit with a code and captured stdout/stderr. -/
inductive ProcOutcome where
  | launchError (msg : String)
  | exit (code : Int) (stdout : String) (stderr : String)
  deriving Repr, DecidableEq

/-- The uniform `{ output, error }` record the runner resolves to. -/
structure ScriptResult where
  output : String
  error : Option String
  deriving Repr, DecidableEq

/-- `runPythonScript` (`src/unnamed/part_002:542-578`): zero exit gives the
stdout with no error; nonzero exit gives stderr (or a generic message when
stderr is empty); a launch error gives empty output and the error message. -/
def runPythonScript (proc : ProcOutcome) : ScriptResult :=
  match proc with
  | ProcOutcome.launchError msg => ⟨"", some msg⟩
  | ProcOutcome.exit code stdout stderr =>
    if code = 0 then ⟨stdout, none⟩
    else ⟨stdout, some (jsOrStr stderr ("Process exited with code " ++ toString code))⟩

/-- The `results` object of the AI collaborator's JSON payload; the leaf
analysis documents are passed through opaquely and modelled as strings. -/
structure AIResults where
  header : Option String
  footer : Option String
  body : Option String
  sitelinks : Option String
  deriving Repr, DecidableEq

/-- The AI collaborator's JSON payload
`{ success: bool, error?: string, results?: ... }`; absent fields are
`none`. -/
structure AIPayload where
  success : Option Bool
  error : Option String
  results : Option AIResults
  deriving Repr, DecidableEq

/-- Presence of the six region files in the capture output directory. -/
structure FSState where
  headerPng : Bool
  headerHtml : Bool
  footerPng : Bool
  footerHtml : Bool
  bodyPng : Bool
  bodyHtml : Bool
  deriving Repr, DecidableEq

/-- `hasHeader` in `runAIAnalysis` (`src/unnamed/part_002:592`). -/
def hasHeader (f : FSState) : Bool := f.headerPng && f.headerHtml

/-- `hasFooter` in `runAIAnalysis` (`src/unnamed/part_002:593`). -/
def hasFooter (f : FSState) : Bool := f.footerPng && f.footerHtml

/-- `hasBody` in `runAIAnalysis` (`src/unnamed/part_002:594`). -/
def hasBody (f : FSState) : Bool := f.bodyPng && f.bodyHtml

/-- The file requirement as the spec words it (for comparison with
`validateFiles`): role `full` requires the header, body and footer pairs;
role `body-only` requires the body pair. -/
def specRequiredFilesOk (f : FSState) (analysisType : String) : Bool :=
  if analysisType = "all" then hasHeader f && hasBody f && hasFooter f
  else hasBody f

/-- The required-file validation of `runAIAnalysis`
(`src/unnamed/part_002:596-605`): for type `'all'` it throws only when
header and footer pairs are BOTH missing; for type `'body'` it throws when
the body pair is missing.  Returns the thrown message, or `none` when
validation passes. -/
def validateFiles (f : FSState) (analysisType : String) : Option String :=
  if analysisType = "all" then
    if !hasHeader f && !hasFooter f then
      some "No header or footer files found for full analysis"
    else none
  else if analysisType = "body" then
    if !hasBody f then some "No body files found for body analysis"
    else none
  else none

/-- The `{ analysis, error }` record `runAIAnalysis` resolves to, plus a
`spawned` flag recording whether the AI subprocess was actually spawned
(the spawn on line 612 is reached only after validation passes). -/
structure AIRunResult where
  analysis : Option AIPayload
  error : Option String
  spawned : Bool
  deriving Repr, DecidableEq

/-- `runAIAnalysis(outputDir, url, analysisType)`
(`src/unnamed/part_002:581-660`): validate required files (a throw is caught
by the outer `try` and returned as the error); then spawn the AI subprocess
(an oracle), and on zero exit `JSON.parse` its stdout — a parse exception is
downgraded to a `Failed to parse AI response` error; a payload with
`success === false` yields its own error message. -/
def runAIAnalysis (f : FSState) (analysisType : String)
    (jsonParse : String → Except String AIPayload) (proc : ProcOutcome) :
    AIRunResult :=
  match validateFiles f analysisType with
  | some msg => ⟨none, some msg, false⟩
  | none =>
    match proc with
    | ProcOutcome.launchError msg => ⟨none, some msg, true⟩
    | ProcOutcome.exit code stdout stderr =>
      if code = 0 then
        match jsonParse stdout with
        | Except.error pmsg =>
          ⟨none,
           some ("Failed to parse AI response: " ++ pmsg ++ ". Raw output: "
                 ++ jsSubstr stdout 200),
           true⟩
        | Except.ok payload =>
          if payload.success = some false then
            ⟨none, some (jsOrOpt payload.error "AI analysis returned error"), true⟩
          else ⟨some payload, none, true⟩
      else ⟨none, some (jsOrStr stderr ("AI analysis failed with code " ++ toString code)), true⟩

/-! ## Per-URL pipeline of `processAnalysisJob` -/

/-- The screenshot argument list built in `processAnalysisJob`
(`src/unnamed/part_002:430-432`): `[url]`, then `--header-height h` when
`job.headerHeight` is truthy, then `--footer-height h` when
`job.footerHeight` is truthy. -/
def buildScreenshotArgs (url : String) (hh fh : Option Int) : List String :=
  [url]
    ++ (match hh with
        | some n => if n ≠ 0 then ["--header-height", toString n] else []
        | none => [])
    ++ (match fh with
        | some n => if n ≠ 0 then ["--footer-height", toString n] else []
        | none => [])

/-- The environment one loop iteration interacts with: the capture
subprocess (a function of the argument list it is spawned with), the file
system contents of the capture's output directory, and the AI subprocess (a
function of outputDir, url and analysisType). -/
structure UrlEnv where
  screenshot : List String → ProcOutcome
  fsys : FSState
  aiProc : String → String → String → ProcOutcome

/-- A per-URL outcome record pushed onto `job.completed`: either the success
record built on `src/unnamed/part_002:465-483` (header/footer fields present
only for `'all'`-type analysis, `none` at the outer `Option` meaning the
field is absent) or the error record of lines 500-504. -/
inductive PageResult where
  | ok (url : String) (outputDir : String) (analysisType : String)
      (imagesBody : String) (bodyAnalysis : Option String)
      (imagesHeader : Option String) (imagesFooter : Option String)
      (headerAnalysis : Option (Option String))
      (footerAnalysis : Option (Option String))
      (siteLinksAnalysis : Option (Option String))
  | failure (url : String) (error : String)
  deriving Repr, DecidableEq

/-- The `url` field every PageResult carries. -/
def PageResult.urlOf : PageResult → String
  | PageResult.ok u _ _ _ _ _ _ _ _ _ => u
  | PageResult.failure u _ => u

/-- One `results` field of the AI payload, with the `|| null` collapse. -/
def aiField (ai : AIRunResult) (f : AIResults → Option String) : Option String :=
  jsOrNull ((ai.analysis.bind (fun a => a.results)).bind f)

/-- The body of one iteration of the `processAnalysisJob` loop
(`src/unnamed/part_002:426-512`), with every `throw` landing in the `catch`
that builds the error record: capture subprocess → output-directory
extraction (primary regex `||` fallback regex) → homepage role resolution →
`runAIAnalysis` → success record assembly. -/
def processUrl (jobUrls : List String) (hh fh : Option Int)
    (jsonParse : String → Except String AIPayload)
    (url : String) (env : UrlEnv) : PageResult :=
  let sres := runPythonScript (env.screenshot (buildScreenshotArgs url hh fh))
  match sres.error with
  | some e => PageResult.failure url ("Screenshot failed: " ++ e)
  | none =>
    match
      (match jsMatchStr outPrimaryPat sres.output with
       | some cap => some cap
       | none => jsMatchStr outAltPat sres.output) with
    | none => PageResult.failure url "Could not find output directory"
    | some cap =>
      let outputDir := jsTrim cap
      let outputDirName := basename outputDir
      let analysisType := analysisTypeFor url jobUrls
      let ai := runAIAnalysis env.fsys analysisType jsonParse
        (env.aiProc outputDir url analysisType)
      match ai.error with
      | some e => PageResult.failure url ("AI analysis failed: " ++ e)
      | none =>
        PageResult.ok url outputDirName analysisType
          ("/screenshots/" ++ outputDirName ++ "/body.png")
          (aiField ai (fun r => r.body))
          (if analysisType = "all"
            then some ("/screenshots/" ++ outputDirName ++ "/header.png") else none)
          (if analysisType = "all"
            then some ("/screenshots/" ++ outputDirName ++ "/footer.png") else none)
          (if analysisType = "all" then some (aiField ai (fun r => r.header)) else none)
          (if analysisType = "all" then some (aiField ai (fun r => r.footer)) else none)
          (if analysisType = "all" then some (aiField ai (fun r => r.sitelinks)) else none)

/-! ## Job state, SSE fan-out and the job-processing loop -/

/-- An event written to an SSE connection (`data: ...` frame). -/
inductive Event where
  | started (jobId : String) (totalPages : Nat) (completed : Nat)
  | pageComplete (r : PageResult)
  | finished (jobId : String) (totalCompleted : Nat) (duration : Int)
  deriving Repr, DecidableEq

/-- Is this the terminal event? -/
def Event.isFinished : Event → Bool
  | Event.finished _ _ _ => true
  | _ => false

/-- The in-memory record of `global.analysisJobs[jobId]`
(`src/unnamed/part_002:275-283`); SSE connections are identified by
numeric handles. -/
structure JobState where
  id : String
  urls : List String
  headerHeight : Option Int
  footerHeight : Option Int
  status : String
  completed : List PageResult
  total : Nat
  startTime : Int
  sseConnections : List Nat
  deriving Repr, DecidableEq

/-- The job record created by `/start-analysis`
(`src/unnamed/part_002:275-283`). -/
def createJob (id : String) (urls : List String) (hh fh : Option Int)
    (startTime : Int) : JobState :=
  ⟨id, urls, hh, fh, "started", [], urls.length, startTime, []⟩

/-- One step of `job.sseConnections.forEach` inside `broadcastToJob`
(`src/unnamed/part_002:405-413`), including JavaScript `forEach` semantics:
the iteration bound is the array length captured at the start, the element
is read from the CURRENT array at index `k` (skipped when the array has
shrunk below `k`), and a failing write removes the connection in place with
`splice(k, 1)`.  `fails c` says whether `res.write` throws for connection
`c`.  Returns the final array and the connections that received the
message, in delivery order. -/
def bcAux (fails : Nat → Bool) :
    Nat → Nat → List Nat → List Nat → (List Nat × List Nat)
  | 0, _, arr, acc => (arr, acc.reverse)
  | fuel + 1, k, arr, acc =>
    match arr.get? k with
    | none => bcAux fails fuel (k + 1) arr acc
    | some c =>
      if fails c then bcAux fails fuel (k + 1) (arr.eraseIdx k) acc
      else bcAux fails fuel (k + 1) arr (c :: acc)

/-- `broadcastToJob` (`src/unnamed/part_002:398-414`); see `bcAux`. -/
def broadcastToJob (fails : Nat → Bool) (conns : List Nat) :
    List Nat × List Nat :=
  bcAux fails conns.length 0 conns []

/-- The SSE subscription handler `app.get('/analysis-stream/:jobId')`
(`src/unnamed/part_002:303-363`) for a known job: push the new connection,
write a `started` snapshot and one `page-complete` per already-completed
result to it, and, when the job is already finished, also write the terminal
`finished` event and `res.end()` the response — ending the response fires
the `close` handler registered on line 344, which removes the connection
(`indexOf` + `splice`, i.e. `List.erase`).  Returns the updated job and the
events written to the new connection, in order. -/
def subscribe (job : JobState) (newConn : Nat) (now : Int) :
    JobState × List Event :=
  let conns1 := job.sseConnections ++ [newConn]
  let evs := Event.started job.id job.total job.completed.length
    :: job.completed.map Event.pageComplete
  if job.status = "finished" then
    ({ job with sseConnections := conns1.erase newConn },
     evs ++ [Event.finished job.id job.completed.length (now - job.startTime)])
  else
    ({ job with sseConnections := conns1 }, evs)

/-- One iteration of the `processAnalysisJob` loop
(`src/unnamed/part_002:423-513`): compute the URL's PageResult, push it onto
`job.completed`, and broadcast a `page-complete` event (which may drop
connections whose write throws).  The accumulated second component is the
trace of broadcast events. -/
def stepUrl (jsonParse : String → Except String AIPayload)
    (envFor : Nat → UrlEnv) (fails : Nat → Bool)
    (st : JobState × List Event) (p : Nat × String) : JobState × List Event :=
  let job := st.1
  let r := processUrl job.urls job.headerHeight job.footerHeight jsonParse
    p.2 (envFor p.1)
  ({ job with
      completed := job.completed ++ [r],
      sseConnections := (broadcastToJob fails job.sseConnections).1 },
   st.2 ++ [Event.pageComplete r])

/-- `processAnalysisJob(jobId)` (`src/unnamed/part_002:417-539`): run the
loop over the indexed URL list, then mark the job `finished`, broadcast the
terminal event, close every remaining connection and clear the connection
list.  Returns the final job state, the trace of broadcast events, and the
list of connections that were `res.end()`ed at the end. -/
def runJob (jsonParse : String → Except String AIPayload)
    (envFor : Nat → UrlEnv) (fails : Nat → Bool) (now : Int)
    (job : JobState) : JobState × List Event × List Nat :=
  let st1 := job.urls.enum.foldl (stepUrl jsonParse envFor fails) (job, [])
  let j2 := { st1.1 with status := "finished" }
  let finEv := Event.finished j2.id j2.completed.length (now - j2.startTime)
  let j3 := { j2 with sseConnections := (broadcastToJob fails j2.sseConnections).1 }
  let ended := j3.sseConnections
  let j4 := { j3 with sseConnections := [] }
  (j4, st1.2 ++ [finEv], ended)

/-! ## Claims -/

/-- The exact condition under which `isHomePageUrl` returns `true`. -/
lemma isHomePageUrl_iff (url : String) (allUrls : List String) :
    isHomePageUrl url allUrls = true ↔
      ∃ u, parseURL url = some u ∧
        (u.pathname = "/" ∨ u.pathname = "" ∨ u.pathname = "/index.html"
          ∨ u.pathname = "/home"
          ∨ (1 < allUrls.length
              ∧ ((∃ p ∈ homePatterns, url = u.origin ++ p)
                  ∨ url = allUrls.headD ""))) := by
  cases h : parseURL url with
  | none => simp [isHomePageUrl, h]
  | some u =>
    simp only [isHomePageUrl, h, Option.some.injEq]
    constructor
    · intro hb
      refine ⟨u, rfl, ?_⟩
      split_ifs at hb with h1 h2 h3
      · simp only [Bool.or_eq_true, decide_eq_true_eq] at h1
        tauto
      · simp only [List.any_eq_true, decide_eq_true_eq] at h3
        right; right; right; right
        exact ⟨by omega, Or.inl h3⟩
      · simp only [decide_eq_true_eq] at hb
        right; right; right; right
        exact ⟨by omega, Or.inr hb⟩
    · rintro ⟨u', hu', hdisj⟩
      obtain rfl : u = u' := hu'
      split_ifs with h1 h2 h3
      · rfl
      · rfl
      · simp only [Bool.or_eq_true, decide_eq_true_eq, not_or] at h1
        obtain ⟨⟨⟨h1a, h1b⟩, h1c⟩, h1d⟩ := h1
        simp only [List.any_eq_true, decide_eq_true_eq, not_exists, not_and] at h3
        rcases hdisj with h | h | h | h | ⟨_, hp | hp⟩
        · exact absurd h h1a
        · exact absurd h h1b
        · exact absurd h h1c
        · exact absurd h h1d
        · obtain ⟨p, hpmem, hpe⟩ := hp
          exact absurd hpe (h3 p hpmem)
        · simpa using hp
      · simp only [Bool.or_eq_true, decide_eq_true_eq, not_or] at h1
        obtain ⟨⟨⟨h1a, h1b⟩, h1c⟩, h1d⟩ := h1
        simp only [gt_iff_lt, not_lt] at h2
        rcases hdisj with h | h | h | h | ⟨hlen, _⟩
        · exact absurd h h1a
        · exact absurd h h1b
        · exact absurd h h1c
        · exact absurd h h1d
        · omega

/-- C1 counterexample: in the batch `["https://x.com/products",
"https://x.com/"]` the second URL IS a syntactic homepage match, so by the
claim the first URL must get the `body-only` role; the code nonetheless
classifies the first URL as homepage (role `full`), because the first-URL
fallback fires per-URL without checking the other URLs of the batch. -/
theorem C1_counterexample :
    isHomePageUrl "https://x.com/products"
        ["https://x.com/products", "https://x.com/"] = true
    ∧ specSyntacticHome "https://x.com/" = true
    ∧ specSyntacticHome "https://x.com/products" = false
    ∧ specIsHomepage "https://x.com/products"
        ["https://x.com/products", "https://x.com/"] = false
    ∧ analysisTypeFor "https://x.com/products"
        ["https://x.com/products", "https://x.com/"] = "all" := by
  decide

/-- C1 (amended): a URL gets the `full` analysis role exactly when it
parses and its path is `/`, empty, `/index.html` or `/home`, or — in a
multi-URL batch — when the raw URL string equals one of the patterns `/`,
`/index.html`, `/home`, `/index.php` resolved against its origin, or when it
equals the first URL of the batch (this first-URL fallback applies
regardless of whether another URL of the batch is a syntactic homepage
match); every other URL gets the `body-only` role. -/
theorem C1_theorem (url : String) (allUrls : List String) :
    (analysisTypeFor url allUrls = "all" ↔
      ∃ u, parseURL url = some u ∧
        (u.pathname = "/" ∨ u.pathname = "" ∨ u.pathname = "/index.html"
          ∨ u.pathname = "/home"
          ∨ (1 < allUrls.length
              ∧ ((∃ p ∈ homePatterns, url = u.origin ++ p)
                  ∨ url = allUrls.headD ""))))
    ∧ (analysisTypeFor url allUrls = "body" ↔
      ¬ ∃ u, parseURL url = some u ∧
        (u.pathname = "/" ∨ u.pathname = "" ∨ u.pathname = "/index.html"
          ∨ u.pathname = "/home"
          ∨ (1 < allUrls.length
              ∧ ((∃ p ∈ homePatterns, url = u.origin ++ p)
                  ∨ url = allUrls.headD "")))) := by
  rw [← isHomePageUrl_iff]
  unfold analysisTypeFor
  cases hb : isHomePageUrl url allUrls <;>
    simp [hb, show ("body" : String) ≠ "all" by decide,
      show ("all" : String) ≠ "body" by decide]

/-- C9: a URL string the `URL` constructor rejects is classified
non-homepage (the `catch` returns `false`), hence gets the `body-only`
role — even as the first URL of a multi-URL batch. -/
theorem C9_theorem (url : String) (allUrls : List String)
    (h : parseURL url = none) :
    isHomePageUrl url allUrls = false ∧ analysisTypeFor url allUrls = "body" := by
  simp [isHomePageUrl, analysisTypeFor, h]

/-- C9 witness: a concrete unparseable URL heading a two-URL batch. -/
theorem C9_witness :
    parseURL "not a url" = none
    ∧ isHomePageUrl "not a url" ["not a url", "https://x.com/b"] = false
    ∧ analysisTypeFor "not a url" ["not a url", "https://x.com/b"] = "body" := by
  have h : parseURL "not a url" = none := by decide
  have h2 := C9_theorem "not a url" ["not a url", "https://x.com/b"] h
  exact ⟨h, h2.1, h2.2⟩

/-- C8: a falsy `headerHeight`/`footerHeight` (in particular `0`) makes the
corresponding `--header-height`/`--footer-height` argument pair disappear
from the capture invocation: a zero-pixel override is silently dropped. -/
theorem C8_theorem (url : String) (hh fh : Option Int) :
    (jsTruthyNum hh = false →
      buildScreenshotArgs url hh fh = buildScreenshotArgs url none fh)
    ∧ (jsTruthyNum fh = false →
      buildScreenshotArgs url hh fh = buildScreenshotArgs url hh none)
    ∧ jsTruthyNum (some 0) = false
    ∧ buildScreenshotArgs url none none = [url] := by
  refine ⟨?_, ?_, by decide, by simp [buildScreenshotArgs]⟩
  · intro h
    cases hh with
    | none => rfl
    | some n =>
      simp only [jsTruthyNum, bne_eq_false_iff_eq] at h
      simp [buildScreenshotArgs, h]
  · intro h
    cases fh with
    | none => rfl
    | some n =>
      simp only [jsTruthyNum, bne_eq_false_iff_eq] at h
      simp [buildScreenshotArgs, h]

/-- C8 witness: zero-height hints at a concrete invocation. -/
theorem C8_witness :
    buildScreenshotArgs "https://x.com/" (some 0) (some 80)
      = buildScreenshotArgs "https://x.com/" none (some 80)
    ∧ buildScreenshotArgs "https://x.com/" (some 120) (some 0)
      = buildScreenshotArgs "https://x.com/" (some 120) none := by
  have h1 := C8_theorem "https://x.com/" (some 0) (some 80)
  have h2 := C8_theorem "https://x.com/" (some 120) (some 0)
  exact ⟨h1.1 (by decide), h2.2.1 (by decide)⟩

/-- A match of `p ++ q` at the current position yields a match of `q`
somewhere in the string. -/
lemma matchAt_append_isSome (q : List Char) :
    ∀ (p s cap : List Char), matchAt (p ++ q) s = some cap →
      (jsMatchL q s).isSome := by
  intro p
  induction p with
  | nil =>
    intro s cap h
    cases s with
    | nil => simp [jsMatchL, List.nil_append] at h ⊢; simp [h]
    | cons c cs => simp only [List.nil_append] at h; simp [jsMatchL, h]
  | cons a as ih =>
    intro s cap h
    cases s with
    | nil => simp [matchAt] at h
    | cons c cs =>
      rw [List.cons_append] at h
      by_cases hac : a = c
      · rw [matchAt, if_pos hac] at h
        have hs := ih cs cap h
        cases hm : matchAt q (c :: cs) with
        | some cap' => simp [jsMatchL, hm]
        | none => simpa [jsMatchL, hm] using hs
      · rw [matchAt, if_neg hac] at h
        exact absurd h (by simp)

/-- If the longer pattern `p ++ q` matches anywhere, so does `q`. -/
lemma jsMatchL_append_isSome (p q : List Char) :
    ∀ s, (jsMatchL (p ++ q) s).isSome → (jsMatchL q s).isSome := by
  intro s
  induction s with
  | nil =>
    intro h
    rw [jsMatchL] at h
    obtain ⟨cap, hcap⟩ := Option.isSome_iff_exists.mp h
    exact matchAt_append_isSome q p [] cap hcap
  | cons c cs ih =>
    intro h
    cases hm : matchAt (p ++ q) (c :: cs) with
    | some cap => exact matchAt_append_isSome q p (c :: cs) cap hm
    | none =>
      have h' : (jsMatchL (p ++ q) cs).isSome := by
        rw [jsMatchL, hm] at h; exact h
      have h2 := ih h'
      cases hq : matchAt q (c :: cs) with
      | some cap' => simp [jsMatchL, hq]
      | none => simpa [jsMatchL, hq] using h2

/-- The fallback pattern extends the primary pattern by a `"> "` marker. -/
lemma altPat_decomp : outAltPat.data = "> ".data ++ outPrimaryPat.data := by
  decide

/-- C10 counterexample: on a text containing both pattern forms on different
lines, both regexes match but capture DIFFERENT directory texts, so the
"captures the same directory text" part of the claim is false. -/
theorem C10_counterexample :
    jsMatchStr outAltPat "Output saved in: A\n> Output saved in: B" = some "B"
    ∧ jsMatchStr outPrimaryPat "Output saved in: A\n> Output saved in: B"
        = some "A"
    ∧ ("A" : String) ≠ "B" := by
  decide

/-- C10 (amended): whenever the fallback pattern `> Output saved in: (.+)`
matches, the primary pattern `Output saved in: (.+)` also matches (though
the two captures can differ when an earlier standalone occurrence of the
primary pattern exists); consequently the fallback branch of
`extractOutputDirectory` is unreachable and the function is extensionally
equal to extraction by the primary pattern alone. -/
theorem C10_theorem (s : String) :
    ((jsMatchStr outAltPat s).isSome → (jsMatchStr outPrimaryPat s).isSome)
    ∧ extractOutputDirectory s = specExtractPrimaryOnly s := by
  have mono : ∀ t : List Char, (jsMatchL outAltPat.data t).isSome →
      (jsMatchL outPrimaryPat.data t).isSome := by
    intro t h
    rw [altPat_decomp] at h
    exact jsMatchL_append_isSome _ _ t h
  constructor
  · intro h
    simp only [jsMatchStr, Option.isSome_map'] at h ⊢
    exact mono s.data h
  · unfold extractOutputDirectory specExtractPrimaryOnly jsMatchStr
    cases hp : jsMatchL outPrimaryPat.data s.data with
    | some cap => simp [hp]
    | none =>
      cases ha : jsMatchL outAltPat.data s.data with
      | none => simp [hp, ha]
      | some cap =>
        have := mono s.data (by simp [ha])
        simp [hp] at this

/-- C10 witness: a concrete input matched by the fallback pattern. -/
theorem C10_witness :
    (jsMatchStr outPrimaryPat "x> Output saved in: DIR").isSome
    ∧ extractOutputDirectory "x> Output saved in: DIR"
        = specExtractPrimaryOnly "x> Output saved in: DIR" := by
  have h := C10_theorem "x> Output saved in: DIR"
  exact ⟨h.1 (by decide), h.2⟩

/-- C4: evaluating `broadcastToJob` at the failing input.  With connections
`[0, 1]` where only connection `0`'s write throws, the surviving list is
`[1]` but NO connection received the event: connection `1` — whose write
would have succeeded — was skipped, because `splice(index, 1)` inside
`forEach` shifts the array under the fixed iteration index.  The claim says
a failing observer must not prevent delivery to the other attached
observers. -/
theorem C4_theorem :
    broadcastToJob (fun c => c = 0) [0, 1] = ([1], [])
    ∧ (fun c : Nat => decide (c = 0)) 1 = false
    ∧ broadcastToJob (fun _ => false) [0, 1] = ([0, 1], [0, 1]) := by
  decide

/-- A failed required-file validation short-circuits `runAIAnalysis`. -/
lemma runAIAnalysis_validate_fail (f : FSState) (aty : String)
    (jp : String → Except String AIPayload) (proc : ProcOutcome) (msg : String)
    (h : validateFiles f aty = some msg) :
    runAIAnalysis f aty jp proc = ⟨none, some msg, false⟩ := by
  unfold runAIAnalysis
  rw [h]

/-- Once validation passes, the AI subprocess is spawned on every path. -/
lemma runAIAnalysis_spawned (f : FSState) (aty : String)
    (jp : String → Except String AIPayload) (proc : ProcOutcome)
    (h : validateFiles f aty = none) :
    (runAIAnalysis f aty jp proc).spawned = true := by
  unfold runAIAnalysis
  rw [h]
  cases proc with
  | launchError m => rfl
  | exit code stdout stderr =>
    by_cases hc : code = 0
    · simp only [if_pos hc]
      cases hjp : jp stdout with
      | error m => rfl
      | ok payload =>
        by_cases hs : payload.success = some false
        · simp [hs]
        · simp [hs]
    · simp [if_neg hc]

/-- Validation for type `'all'` passes when either pair is present. -/
lemma validateFiles_all_none (f : FSState)
    (h : hasHeader f = true ∨ hasFooter f = true) :
    validateFiles f "all" = none := by
  unfold validateFiles
  rw [if_pos rfl]
  rcases h with h | h <;> simp [h]

/-- Validation for type `'body'` passes when the body pair is present. -/
lemma validateFiles_body_none (f : FSState) (h : hasBody f = true) :
    validateFiles f "body" = none := by
  unfold validateFiles
  rw [if_neg (by decide), if_pos rfl]
  simp [h]

/-- A `runAIAnalysis` error becomes an `AI analysis failed:` Failure
PageResult in the pipeline (screenshot and directory extraction assumed to
have succeeded). -/
lemma processUrl_ai_error (jobUrls : List String) (hh fh : Option Int)
    (jp : String → Except String AIPayload) (url : String) (env : UrlEnv)
    (sout serr cap e : String)
    (hs : env.screenshot (buildScreenshotArgs url hh fh)
            = ProcOutcome.exit 0 sout serr)
    (hm : jsMatchStr outPrimaryPat sout = some cap)
    (he : (runAIAnalysis env.fsys (analysisTypeFor url jobUrls) jp
            (env.aiProc (jsTrim cap) url (analysisTypeFor url jobUrls))).error
          = some e) :
    processUrl jobUrls hh fh jp url env
      = PageResult.failure url ("AI analysis failed: " ++ e) := by
  unfold processUrl
  rw [hs]
  simp only [runPythonScript, eq_self_iff_true, if_true, hm]
  rw [he]

/-- A parse failure of the AI subprocess's stdout is downgraded to the
structured `Failed to parse AI response` error. -/
lemma runAIAnalysis_parse_error (f : FSState) (aty : String)
    (jp : String → Except String AIPayload) (aiOut aiErr pmsg : String)
    (hv : validateFiles f aty = none) (hp : jp aiOut = Except.error pmsg) :
    runAIAnalysis f aty jp (ProcOutcome.exit 0 aiOut aiErr)
      = ⟨none, some ("Failed to parse AI response: " ++ pmsg
          ++ ". Raw output: " ++ jsSubstr aiOut 200), true⟩ := by
  unfold runAIAnalysis
  rw [hv]
  simp [hp]

/-- C5 counterexample: with only the header pair on disk (body and footer
pairs missing), a `full`-role URL passes the code's validation and the AI
subprocess IS spawned, although by the claim the missing body/footer files
must produce a Failure without ever invoking the subprocess. -/
theorem C5_counterexample :
    validateFiles ⟨true, true, false, false, false, false⟩ "all" = none
    ∧ (runAIAnalysis ⟨true, true, false, false, false, false⟩ "all"
        (fun _ => Except.ok ⟨some true, none, none⟩)
        (ProcOutcome.exit 0 "out" "")).spawned = true
    ∧ specRequiredFilesOk ⟨true, true, false, false, false, false⟩ "all"
        = false := by
  decide

/-- C5 (amended): role `full` requires at least one of the header or footer
image-and-markup pairs (the check fails only when BOTH are missing); role
`body-only` requires the body pair; whenever the check fails the URL yields
a Failure PageResult with the descriptive message and the AI-analysis
subprocess is never invoked; when it passes, the subprocess is invoked. -/
theorem C5_theorem (f : FSState) (aty : String)
    (jp : String → Except String AIPayload) (proc : ProcOutcome) :
    (aty = "all" → hasHeader f = false → hasFooter f = false →
      runAIAnalysis f aty jp proc
        = ⟨none, some "No header or footer files found for full analysis",
            false⟩)
    ∧ (aty = "body" → hasBody f = false →
      runAIAnalysis f aty jp proc
        = ⟨none, some "No body files found for body analysis", false⟩)
    ∧ (aty = "all" → (hasHeader f = true ∨ hasFooter f = true) →
      (runAIAnalysis f aty jp proc).spawned = true)
    ∧ (aty = "body" → hasBody f = true →
      (runAIAnalysis f aty jp proc).spawned = true)
    ∧ (∀ jobUrls hh fh url env sout serr cap msg,
        env.screenshot (buildScreenshotArgs url hh fh)
            = ProcOutcome.exit 0 sout serr →
        jsMatchStr outPrimaryPat sout = some cap →
        validateFiles env.fsys (analysisTypeFor url jobUrls) = some msg →
        processUrl jobUrls hh fh jp url env
          = PageResult.failure url ("AI analysis failed: " ++ msg)) := by
  refine ⟨?_, ?_, ?_, ?_, ?_⟩
  · intro h1 h2 h3
    subst h1
    apply runAIAnalysis_validate_fail
    unfold validateFiles
    rw [if_pos rfl]
    simp [h2, h3]
  · intro h1 h2
    subst h1
    apply runAIAnalysis_validate_fail
    unfold validateFiles
    rw [if_neg (by decide), if_pos rfl]
    simp [h2]
  · intro h1 hor
    subst h1
    exact runAIAnalysis_spawned _ _ _ _ (validateFiles_all_none f hor)
  · intro h1 hb
    subst h1
    exact runAIAnalysis_spawned _ _ _ _ (validateFiles_body_none f hb)
  · intro jobUrls hh fh url env sout serr cap msg hs hm hv
    apply processUrl_ai_error jobUrls hh fh jp url env sout serr cap msg hs hm
    rw [runAIAnalysis_validate_fail _ _ _ _ _ hv]

/-- C5 witness: `body.png` present but `body.html` absent for a
`body-only`-role URL — the exact scenario of the spec's testable property. -/
theorem C5_witness :
    runAIAnalysis ⟨false, false, false, false, true, false⟩ "body"
        (fun _ => Except.ok ⟨some true, none, none⟩)
        (ProcOutcome.exit 0 "out" "")
      = ⟨none, some "No body files found for body analysis", false⟩
    ∧ processUrl ["https://x.com/", "https://x.com/about"] none none
        (fun _ => Except.ok ⟨some true, none, none⟩) "https://x.com/about"
        ⟨fun _ => ProcOutcome.exit 0 "Output saved in: out1" "",
         ⟨false, false, false, false, true, false⟩,
         fun _ _ _ => ProcOutcome.exit 0 "never" ""⟩
      = PageResult.failure "https://x.com/about"
          ("AI analysis failed: " ++ "No body files found for body analysis") := by
  have h := C5_theorem ⟨false, false, false, false, true, false⟩ "body"
    (fun _ => Except.ok ⟨some true, none, none⟩) (ProcOutcome.exit 0 "out" "")
  refine ⟨h.2.1 rfl (by decide), ?_⟩
  exact h.2.2.2.2 ["https://x.com/", "https://x.com/about"] none none
    "https://x.com/about"
    ⟨fun _ => ProcOutcome.exit 0 "Output saved in: out1" "",
     ⟨false, false, false, false, true, false⟩,
     fun _ _ _ => ProcOutcome.exit 0 "never" ""⟩
    "Output saved in: out1" "" "out1" "No body files found for body analysis"
    rfl (by decide) (by decide)

/-- C7: a failing JSON parse is downgraded, not propagated: in
`parseProcessOutput` it becomes the structured
`{success: false, error, raw_output: first 200 chars}` record, and in the
job pipeline a malformed AI response becomes a Failure PageResult whose
message cites the parse failure (`Failed to parse AI response: ...`). -/
theorem C7_theorem {α : Type} (jp0 : String → Except String α)
    (out ctx msg : String) (jp : String → Except String AIPayload)
    (jobUrls : List String) (hh fh : Option Int) (url : String) (env : UrlEnv)
    (sout serr cap aiOut aiErr pmsg : String)
    (h0 : jp0 out = Except.error msg)
    (hs : env.screenshot (buildScreenshotArgs url hh fh)
            = ProcOutcome.exit 0 sout serr)
    (hm : jsMatchStr outPrimaryPat sout = some cap)
    (hv : validateFiles env.fsys (analysisTypeFor url jobUrls) = none)
    (ha : env.aiProc (jsTrim cap) url (analysisTypeFor url jobUrls)
            = ProcOutcome.exit 0 aiOut aiErr)
    (hp : jp aiOut = Except.error pmsg) :
    parseProcessOutput jp0 out ctx
      = Sum.inr ⟨false, "Failed to parse " ++ ctx ++ " response: " ++ msg,
          jsSubstr out 200⟩
    ∧ processUrl jobUrls hh fh jp url env
      = PageResult.failure url
          ("AI analysis failed: " ++ ("Failed to parse AI response: " ++ pmsg
            ++ ". Raw output: " ++ jsSubstr aiOut 200)) := by
  constructor
  · unfold parseProcessOutput
    rw [h0]
  · apply processUrl_ai_error jobUrls hh fh jp url env sout serr cap _ hs hm
    rw [ha, runAIAnalysis_parse_error env.fsys _ jp aiOut aiErr pmsg hv hp]

/-- C7 witness: a concrete malformed AI response inside a two-URL batch. -/
theorem C7_witness :
    parseProcessOutput
        (fun _ : String => (Except.error "boom" : Except String Unit))
        "raw" "Python process"
      = Sum.inr ⟨false, "Failed to parse " ++ "Python process"
          ++ " response: " ++ "boom", jsSubstr "raw" 200⟩
    ∧ processUrl ["https://x.com/", "https://x.com/about"] none none
        (fun _ => Except.error "boom2") "https://x.com/about"
        ⟨fun _ => ProcOutcome.exit 0 "Output saved in: out1" "",
         ⟨true, true, true, true, true, true⟩,
         fun _ _ _ => ProcOutcome.exit 0 "not json" ""⟩
      = PageResult.failure "https://x.com/about"
          ("AI analysis failed: " ++ ("Failed to parse AI response: "
            ++ "boom2" ++ ". Raw output: " ++ jsSubstr "not json" 200)) := by
  exact C7_theorem
    (fun _ : String => (Except.error "boom" : Except String Unit))
    "raw" "Python process" "boom" (fun _ => Except.error "boom2")
    ["https://x.com/", "https://x.com/about"] none none "https://x.com/about"
    ⟨fun _ => ProcOutcome.exit 0 "Output saved in: out1" "",
     ⟨true, true, true, true, true, true⟩,
     fun _ _ _ => ProcOutcome.exit 0 "not json" ""⟩
    "Output saved in: out1" "" "out1" "not json" "" "boom2"
    rfl rfl (by decide) (by decide) rfl rfl

/-- C3: a subscriber attaching to a known job receives, synchronously and in
this order: one `started` snapshot (total and current completed count), then
exactly one `page-complete` replay per already-completed PageResult in
completion order (no duplicates, no gaps — the replay list IS the completed
list), and, when the job is already finished, the terminal `finished` event,
after which the connection is detached from the subscriber set; a
not-yet-finished job leaves the subscriber attached with no further events
yet delivered. -/
theorem C3_theorem (job : JobState) (c : Nat) (now : Int) :
    (subscribe job c now).2
      = Event.started job.id job.total job.completed.length
          :: (job.completed.map Event.pageComplete
            ++ (if job.status = "finished"
                then [Event.finished job.id job.completed.length
                        (now - job.startTime)]
                else []))
    ∧ ((subscribe job c now).2.drop 1).take job.completed.length
        = job.completed.map Event.pageComplete
    ∧ (job.status = "finished" → c ∉ job.sseConnections →
        c ∉ (subscribe job c now).1.sseConnections)
    ∧ (job.status ≠ "finished" →
        (subscribe job c now).1.sseConnections = job.sseConnections ++ [c]) := by
  by_cases h : job.status = "finished"
  · refine ⟨?_, ?_, ?_, ?_⟩
    · simp [subscribe, h]
    · simp only [subscribe, if_pos h]
      rw [List.drop_one, List.cons_append, List.tail_cons,
        ← List.length_map job.completed Event.pageComplete, List.take_left]
    · intro _ hc
      simp only [subscribe, if_pos h]
      rw [List.erase_append_right _ (by simpa using hc), List.erase_cons_head]
      simpa using hc
    · intro hn
      exact absurd h hn
  · refine ⟨?_, ?_, ?_, ?_⟩
    · simp [subscribe, h]
    · simp only [subscribe, if_neg h]
      rw [List.drop_one, List.tail_cons,
        ← List.length_map job.completed Event.pageComplete, List.take_length]
    · intro hf
      exact absurd hf h
    · intro _
      simp [subscribe, h]

/-- C3 witness: a finished one-URL job with one completed result and one
other attached observer. -/
theorem C3_witness :
    (subscribe
        ⟨"j1", ["https://x.com/"], none, none, "finished",
          [PageResult.failure "https://x.com/" "Screenshot failed: boom"],
          1, 100, [5]⟩ 7 150).2
      = [Event.started "j1" 1 1,
         Event.pageComplete
           (PageResult.failure "https://x.com/" "Screenshot failed: boom"),
         Event.finished "j1" 1 50]
    ∧ 7 ∉ (subscribe
        ⟨"j1", ["https://x.com/"], none, none, "finished",
          [PageResult.failure "https://x.com/" "Screenshot failed: boom"],
          1, 100, [5]⟩ 7 150).1.sseConnections := by
  have h := C3_theorem
    ⟨"j1", ["https://x.com/"], none, none, "finished",
      [PageResult.failure "https://x.com/" "Screenshot failed: boom"],
      1, 100, [5]⟩ 7 150
  exact ⟨h.1.trans (by decide), h.2.2.1 rfl (by decide)⟩

/-- What the `processAnalysisJob` loop does to the job state and the event
trace: one PageResult and one `page-complete` broadcast per URL, in order,
with `id`, `startTime`, `status` and `urls` untouched. -/
lemma foldl_stepUrl (jp : String → Except String AIPayload)
    (envFor : Nat → UrlEnv) (fails : Nat → Bool) :
    ∀ (l : List (Nat × String)) (job : JobState) (tr : List Event),
      (l.foldl (stepUrl jp envFor fails) (job, tr)).1.completed
        = job.completed ++ l.map (fun p =>
            processUrl job.urls job.headerHeight job.footerHeight jp p.2
              (envFor p.1))
      ∧ (l.foldl (stepUrl jp envFor fails) (job, tr)).2
        = tr ++ l.map (fun p => Event.pageComplete
            (processUrl job.urls job.headerHeight job.footerHeight jp p.2
              (envFor p.1)))
      ∧ (l.foldl (stepUrl jp envFor fails) (job, tr)).1.id = job.id
      ∧ (l.foldl (stepUrl jp envFor fails) (job, tr)).1.startTime
          = job.startTime
      ∧ (l.foldl (stepUrl jp envFor fails) (job, tr)).1.status = job.status
      ∧ (l.foldl (stepUrl jp envFor fails) (job, tr)).1.urls = job.urls := by
  intro l
  induction l with
  | nil => intro job tr; simp
  | cons p ps ih =>
    intro job tr
    simp only [List.foldl_cons]
    have hstep : stepUrl jp envFor fails (job, tr) p
        = ({ job with
              completed := job.completed
                ++ [processUrl job.urls job.headerHeight job.footerHeight jp
                      p.2 (envFor p.1)],
              sseConnections := (broadcastToJob fails job.sseConnections).1 },
           tr ++ [Event.pageComplete
              (processUrl job.urls job.headerHeight job.footerHeight jp p.2
                (envFor p.1))]) := rfl
    rw [hstep]
    obtain ⟨h1, h2, h3, h4, h5, h6⟩ := ih ({ job with
        completed := job.completed
          ++ [processUrl job.urls job.headerHeight job.footerHeight jp p.2
                (envFor p.1)],
        sseConnections := (broadcastToJob fails job.sseConnections).1 })
      (tr ++ [Event.pageComplete
        (processUrl job.urls job.headerHeight job.footerHeight jp p.2
          (envFor p.1))])
    refine ⟨?_, ?_, ?_, ?_, ?_, ?_⟩
    · rw [h1]; simp
    · rw [h2]; simp
    · rw [h3]
    · rw [h4]
    · rw [h5]
    · rw [h6]

/-- C2: a freshly created job, run to completion, collects exactly one
PageResult per URL in the sequential processing order (a thrown step becomes
a Failure result inside `processUrl`, so later URLs are unaffected); the
final `completed` length equals the URL count, the final status is
`finished`, and after any prefix of the loop `completed` never exceeds the
URL count. -/
theorem C2_theorem (jp : String → Except String AIPayload)
    (envFor : Nat → UrlEnv) (fails : Nat → Bool) (idv : String)
    (urls : List String) (hh fh : Option Int) (t0 now : Int) :
    (runJob jp envFor fails now (createJob idv urls hh fh t0)).1.completed
      = urls.enum.map (fun p => processUrl urls hh fh jp p.2 (envFor p.1))
    ∧ (runJob jp envFor fails now
        (createJob idv urls hh fh t0)).1.completed.length = urls.length
    ∧ (runJob jp envFor fails now (createJob idv urls hh fh t0)).1.status
        = "finished"
    ∧ ∀ k, ((urls.enum.take k).foldl (stepUrl jp envFor fails)
          (createJob idv urls hh fh t0, [])).1.completed.length
        ≤ urls.length := by
  obtain ⟨h1, h2, h3, h4, h5, h6⟩ :=
    foldl_stepUrl jp envFor fails urls.enum (createJob idv urls hh fh t0) []
  simp only [createJob] at h1
  have hcomp : (runJob jp envFor fails now
      (createJob idv urls hh fh t0)).1.completed
      = urls.enum.map (fun p => processUrl urls hh fh jp p.2 (envFor p.1)) := by
    simp only [runJob, createJob]
    rw [h1]
    simp
  refine ⟨hcomp, ?_, ?_, ?_⟩
  · rw [hcomp]
    simp
  · simp only [runJob]
  · intro k
    obtain ⟨hk, _⟩ := foldl_stepUrl jp envFor fails (urls.enum.take k)
      (createJob idv urls hh fh t0) []
    rw [hk]
    simp only [createJob, List.nil_append, List.length_map, List.length_take,
      List.enum_length]
    omega

/-- C6: for a whole job run, the broadcast trace is the per-URL
`page-complete` events followed by a single terminal `finished` event
carrying the job id, the total completed count and the duration — it is the
only `finished` event ever broadcast and the last event of the trace; after
it the remaining connections (those the terminal broadcast did not drop) are
all closed and the subscriber set is emptied. -/
theorem C6_theorem (jp : String → Except String AIPayload)
    (envFor : Nat → UrlEnv) (fails : Nat → Bool) (idv : String)
    (urls : List String) (hh fh : Option Int) (t0 now : Int)
    (conns : List Nat) :
    (runJob jp envFor fails now
        { createJob idv urls hh fh t0 with sseConnections := conns }).2.1
      = urls.enum.map (fun p => Event.pageComplete
          (processUrl urls hh fh jp p.2 (envFor p.1)))
        ++ [Event.finished idv urls.length (now - t0)]
    ∧ (runJob jp envFor fails now
        { createJob idv urls hh fh t0 with
            sseConnections := conns }).2.1.filter Event.isFinished
      = [Event.finished idv urls.length (now - t0)]
    ∧ (runJob jp envFor fails now
        { createJob idv urls hh fh t0 with
            sseConnections := conns }).2.1.getLast?
      = some (Event.finished idv urls.length (now - t0))
    ∧ (runJob jp envFor fails now
        { createJob idv urls hh fh t0 with
            sseConnections := conns }).1.sseConnections = []
    ∧ (runJob jp envFor fails now
        { createJob idv urls hh fh t0 with sseConnections := conns }).2.2
      = (broadcastToJob fails
          (urls.enum.foldl (stepUrl jp envFor fails)
            ({ createJob idv urls hh fh t0 with sseConnections := conns },
              [])).1.sseConnections).1 := by
  obtain ⟨h1, h2, h3, h4, h5, h6⟩ := foldl_stepUrl jp envFor fails urls.enum
    { createJob idv urls hh fh t0 with sseConnections := conns } []
  simp only [createJob] at h1 h2 h3 h4
  have htrace : (runJob jp envFor fails now
      { createJob idv urls hh fh t0 with sseConnections := conns }).2.1
      = urls.enum.map (fun p => Event.pageComplete
          (processUrl urls hh fh jp p.2 (envFor p.1)))
        ++ [Event.finished idv urls.length (now - t0)] := by
    simp only [runJob, createJob]
    rw [h2, h3, h4, h1]
    simp
  have hnil : (urls.enum.map (fun p => Event.pageComplete
      (processUrl urls hh fh jp p.2 (envFor p.1)))).filter Event.isFinished
      = [] := by
    rw [List.filter_eq_nil_iff]
    intro a ha
    obtain ⟨p, _, rfl⟩ := List.mem_map.mp ha
    simp [Event.isFinished]
  refine ⟨htrace, ?_, ?_, ?_, ?_⟩
  · rw [htrace, List.filter_append, hnil]
    simp [Event.isFinished]
  · rw [htrace]
    simp
  · simp only [runJob, createJob]
  · simp only [runJob, createJob]

end DefineOS
